import Mathlib

/-!
Verification of the x402chatly payment gate and AI-provider layer.

Shallow embedding of the TypeScript sources:
  * `src/lib/supabase.ts` (x402 part): pricing (`getPrice`, `AI_MODEL_PRICING`,
    `getModelPrice`), config (`getX402Config`), requirements
    (`createChatPaymentRequirements`), the gate (`X402PaymentHandler`:
    `create402Response`, `verifyPayment`, `settlePayment`, `handlePaymentFlow`,
    `addPaymentResponseHeaders`) and the middleware (`withX402Payment`).
  * `src/lib/ai-providers.ts`: message conversion (`toTextOnlyMessage`,
    `toAnthropicMessage`), the Deepseek/GPT-5 request bodies and the SSE
    stream loop of `streamChat`.
  * `src/src/app/api/chat/route.ts`: attachment normalization
    (`normalizeAttachments`, `isValidDataUrl`), input validation and the
    temperature / maxTokens clamping of `handleChatRequest`.

The process environment is modelled as a function `Env := String → Option String`
(`none` = variable unset).  JavaScript truthiness on optional strings
(`undefined` and `""` are falsy) is modelled by `jsOr` / `jsOrO`.
-/

/-- Process environment: `env k = none` models `process.env[k] === undefined`. -/
def Env : Type := String → Option String

/-- JavaScript `a || d` for `a : string | undefined` (both `undefined` and `""`
are falsy). -/
def jsOr (a : Option String) (d : String) : String :=
  match a with
  | none => d
  | some s => if s = "" then d else s

/-- JavaScript `a || b` kept as an optional value (used for the
`X402_FACILITATOR_FEE_PAYER || NEXT_PUBLIC_X402_FEE_PAYER || FACILITATOR_FEE_PAYER || null`
chain). -/
def jsOrO (a b : Option String) : Option String :=
  match a with
  | none => b
  | some s => if s = "" then b else some s

/-- JavaScript string interpolation of a possibly-undefined value
(template literals render `undefined` as the string "undefined"). -/
def jsShow (a : Option String) : String :=
  match a with
  | none => "undefined"
  | some s => s

/-- The three supported models, `AIModel` in the source
(`deepseek | gpt-5 | claude-sonnet-4-5`). -/
inductive AIModel where
  | deepseek
  | gpt5
  | claude
deriving DecidableEq

/-- `getPrice(envKey, fallback)` from `supabase.ts` (x402 part):
`value && /^\d+$/.test(value) ? value : fallback`. -/
def getPrice (env : Env) (envKey fallback : String) : String :=
  match env envKey with
  | none => fallback
  | some value =>
      if value ≠ "" ∧ value.toList.all Char.isDigit then value else fallback

/-- `AI_MODEL_PRICING[m].pricePerMessage` (fallbacks from `FALLBACK_PRICING`). -/
def pricePerMessage (env : Env) : AIModel → String
  | .gpt5 => getPrice env "PRICE_GPT" "100000"
  | .claude => getPrice env "PRICE_CLAUDE" "200000"
  | .deepseek => getPrice env "PRICE_DEEPSEEK" "30000"

/-- `AI_MODEL_PRICING[m].visionPrice` (fallbacks from `FALLBACK_PRICING`). -/
def visionPrice (env : Env) : AIModel → String
  | .gpt5 => getPrice env "PRICE_VISION_ADDON" "150000"
  | .claude => getPrice env "PRICE_VISION_ADDON" "250000"
  | .deepseek => getPrice env "PRICE_DEEPSEEK_VISION" "30000"

/-- `getModelPrice(model, hasVision)`:
`hasVision ? modelConfig.visionPrice : modelConfig.pricePerMessage`. -/
def getModelPrice (env : Env) (model : AIModel) (hasVision : Bool) : String :=
  if hasVision then visionPrice env model else pricePerMessage env model

/-- Numeric value of a decimal digit string (prices are smallest-unit
decimal strings). -/
def decVal (s : String) : Nat :=
  s.toList.foldl (fun a c => a * 10 + (c.toNat - 48)) 0

/-- The environment with no variable set. -/
def emptyEnv : Env := fun _ => none

/-- An environment that overrides only `PRICE_GPT` (to a value above the
vision fallback). -/
def envGptOverride : Env :=
  fun k => if k = "PRICE_GPT" then some "200000" else none

/-! ### JavaScript string primitives

Character-list implementations of the string operations the source uses
(`startsWith`, `slice`, `trim`, `split`, the regex character classes), so
that all definitions compute by structural recursion. -/

/-- JavaScript regex `\w`: `[A-Za-z0-9_]`. -/
def isWordChar (c : Char) : Bool :=
  c.isAlpha || c.isDigit || c = '_'

/-- JavaScript regex `\s` / `String.prototype.trim` whitespace (the
characters relevant to this code base). -/
def isJsWs (c : Char) : Bool :=
  c = ' ' || c = '\t' || c = '\n' || c = '\r' ||
  c = '\x0b' || c = '\x0c' || c = '\u00A0' || c = '\u2028' || c = '\u2029'

/-- JavaScript regex `.` (without the `s` flag) excludes line terminators. -/
def isLineTerm (c : Char) : Bool :=
  c = '\n' || c = '\r' || c = '\u2028' || c = '\u2029'

/-- Strip an exact leading pattern: `some rest` iff `l = pat ++ rest`. -/
def dropPat? : List Char → List Char → Option (List Char)
  | l, [] => some l
  | [], _ :: _ => none
  | c :: cs, p :: ps => if c = p then dropPat? cs ps else none

/-- JavaScript `s.startsWith(p)`. -/
def jsStartsWith (s p : String) : Bool :=
  (dropPat? s.toList p.toList).isSome

/-- JavaScript `s.slice(n)` for `n ≥ 0`. -/
def jsSlice (s : String) (n : Nat) : String :=
  (s.toList.drop n).asString

/-- JavaScript `s.trim()`. -/
def jsTrim (s : String) : String :=
  (((s.toList.dropWhile isJsWs).reverse.dropWhile isJsWs).reverse).asString

/-- JavaScript `s.split(sep)` for a one-character separator (splitting
`""` yields `[""]`, a trailing separator yields a trailing `""`). -/
def jsSplitAux (sep : Char) : List Char → List Char → List String
  | [], acc => [acc.reverse.asString]
  | c :: cs, acc =>
      if c = sep then acc.reverse.asString :: jsSplitAux sep cs []
      else jsSplitAux sep cs (c :: acc)

def jsSplit (s : String) (sep : Char) : List String :=
  jsSplitAux sep s.toList []

/-! ### Message model (`ai-providers.ts`) -/

inductive Role where
  | user
  | assistant
  | system
deriving DecidableEq

/-- One element of array-shaped `MessageContent`:
`TextContent | ImageContent` (the optional `detail` of `image_url` is kept). -/
inductive ContentPart where
  | text (text : String)
  | image (url : String) (detail : Option String)
deriving DecidableEq

/-- `MessageContent`: `string | Array<TextContent | ImageContent>`. -/
inductive MessageContent where
  | str (s : String)
  | parts (ps : List ContentPart)
deriving DecidableEq

structure ChatMessage where
  role : Role
  content : MessageContent
deriving DecidableEq

/-- The fixed placeholder of `toTextOnlyMessage`. -/
def imagesPlaceholder : String := "[Изображения не поддерживаются Deepseek]"

/-- The text parts of an array content, in order. -/
def textParts (ps : List ContentPart) : List String :=
  ps.filterMap fun p =>
    match p with
    | .text t => some t
    | .image _ _ => none

/-- The image parts (their URLs) of an array content, in order. -/
def imageParts (ps : List ContentPart) : List String :=
  ps.filterMap fun p =>
    match p with
    | .text _ => none
    | .image u _ => some u

/-- `textParts.join('\n')` of `toTextOnlyMessage`. -/
def joinedTexts (ps : List ContentPart) : String :=
  String.intercalate "\n" (textParts ps)

/-- Array branch of `toTextOnlyMessage`:
`textParts.join('\n') || '[Изображения не поддерживаются Deepseek]'`
(the JavaScript `||` falls back exactly when the join is the empty string). -/
def toTextOnlyContent (ps : List ContentPart) : String :=
  if joinedTexts ps = "" then imagesPlaceholder else joinedTexts ps

/-- `toTextOnlyMessage(msg)` (Deepseek wire message: role + plain string). -/
def toTextOnlyMessage (msg : ChatMessage) : Role × String :=
  match msg.content with
  | .str s => (msg.role, s)
  | .parts ps => (msg.role, toTextOnlyContent ps)

/-! ### Anthropic (typed-block) conversion -/

/-- Source of an Anthropic image block. -/
inductive AnthropicSource where
  | base64 (mediaType data : String)
  | url (url : String)
deriving DecidableEq

/-- An Anthropic content block. -/
inductive AnthropicBlock where
  | text (text : String)
  | image (source : AnthropicSource)
deriving DecidableEq

/-- The regex `/^data:(image\/\w+);base64,(.+)$/` of `toAnthropicMessage`:
`some (mediaType, data)` on a match.  The mime subtype is a non-empty `\w+`
run (greedy matching is deterministic here because `;` is not a word
character), and `(.+)$` requires a non-empty remainder free of line
terminators. -/
def matchDataImageUrl (url : String) : Option (String × String) :=
  match dropPat? url.toList "data:image/".toList with
  | none => none
  | some rest =>
      let sub := rest.takeWhile isWordChar
      let rest2 := rest.dropWhile isWordChar
      if sub.isEmpty then none
      else
        match dropPat? rest2 ";base64,".toList with
        | none => none
        | some data =>
            if data.isEmpty || data.any isLineTerm then none
            else some ("image/" ++ sub.asString, data.asString)

/-- Per-part conversion of the array branch of `toAnthropicMessage`:
text parts become text blocks; image parts with a `data:` URL matching the
fixed pattern become base64-sourced image blocks, all other URLs become
url-sourced image blocks. -/
def toAnthropicPart (p : ContentPart) : AnthropicBlock :=
  match p with
  | .text t => .text t
  | .image url _ =>
      if jsStartsWith url "data:" then
        match matchDataImageUrl url with
        | some (mt, d) => .image (.base64 mt d)
        | none => .image (.url url)
      else .image (.url url)

/-- Array branch of `toAnthropicMessage` (`msg.content.map(item => ...)`). -/
def toAnthropicContent (ps : List ContentPart) : List AnthropicBlock :=
  ps.map toAnthropicPart

/-- Modelled from the spec words of C6 (refinement reference): "text parts
map to a text block; image parts map to an image block whose source is
`{type:"base64", mediaType, data}` when the URL matches the fixed
`data:<image mime>;base64,<data>` pattern and `{type:"url", url}`
otherwise" — stated without the source's redundant `startsWith("data:")`
pre-check. -/
def anthropicPartSpec (p : ContentPart) : AnthropicBlock :=
  match p with
  | .text t => .text t
  | .image url _ =>
      match matchDataImageUrl url with
      | some (mt, d) => .image (.base64 mt d)
      | none => .image (.url url)

/-! ### Provider configuration and request bodies (`ai-providers.ts`, `route.ts`) -/

/-- `AIProviderConfig` (numbers modelled as rationals; `temperature` and
`maxTokens` are optional, as in the source). -/
structure AIProviderConfig where
  model : AIModel
  messages : List ChatMessage
  temperature : Option ℚ
  maxTokens : Option ℚ
  systemPrompt : Option String

/-- JavaScript `x || d` on an optional number: `undefined` and `0` are
falsy (this is the expression `config.temperature || 0.7` /
`config.maxTokens || 2000` in the adapters). -/
def jsOrNum (x : Option ℚ) (d : ℚ) : ℚ :=
  match x with
  | none => d
  | some v => if v = 0 then d else v

/-- `toOpenAIMessage`: the OpenAI wire format matches the internal shape. -/
def toOpenAIMessage (msg : ChatMessage) : Role × MessageContent :=
  (msg.role, msg.content)

/-- The JSON body `DeepseekProvider.chat` POSTs to `/chat/completions`. -/
structure DeepseekBody where
  model : String
  messages : List (Role × String)
  stream : Bool
  temperature : ℚ
  max_tokens : ℚ

def deepseekChatBody (config : AIProviderConfig) : DeepseekBody :=
  { model := "deepseek-chat"
    messages := config.messages.map toTextOnlyMessage
    stream := false
    temperature := jsOrNum config.temperature (7 / 10)
    max_tokens := jsOrNum config.maxTokens 2000 }

/-- The JSON body `GPT5Provider.chat` POSTs to `/chat/completions`. -/
structure OpenAIBody where
  model : String
  messages : List (Role × MessageContent)
  stream : Bool
  temperature : ℚ
  max_tokens : ℚ

def gpt5ChatBody (config : AIProviderConfig) : OpenAIBody :=
  { model := "gpt-4o"
    messages := config.messages.map toOpenAIMessage
    stream := false
    temperature := jsOrNum config.temperature (7 / 10)
    max_tokens := jsOrNum config.maxTokens 2000 }

/-- `handleChatRequest`: `Math.min(Math.max(maxTokens, 256), 2048)`. -/
def resolvedMaxTokens (maxTokens : ℚ) : ℚ :=
  min (max maxTokens 256) 2048

/-- `handleChatRequest`: `Math.min(Math.max(temperature, 0), 2)`. -/
def resolvedTemperature (temperature : ℚ) : ℚ :=
  min (max temperature 0) 2

/-! ### SSE streaming (`streamChat` of the Deepseek and GPT-5 adapters) -/

/-- `StreamChunk`: `{text, isComplete}`. -/
structure StreamChunk where
  text : String
  isComplete : Bool
deriving DecidableEq

/-- Outcome of `JSON.parse(data)` followed by
`parsed.choices?.[0]?.delta?.content`: `malformed` models a thrown parse
error, `parsed d` a successful parse whose extracted delta is `d` (absent
or a string).  The JSON engine is abstracted as this oracle; the line
protocol around it is modelled exactly. -/
inductive SseParse where
  | malformed
  | parsed (delta : Option String)

/-- One complete line of the `for (const line of lines)` loop: the chunk
yielded for it, if any, and whether the generator returned
(`data: [DONE]`).  A non-`data: ` line is ignored; a malformed payload is
logged and skipped; an absent or empty delta yields nothing. -/
def emitLine (parse : String → SseParse) (line : String) :
    Option StreamChunk × Bool :=
  if jsStartsWith line "data: " then
    let data := jsTrim (jsSlice line 6)
    if data = "[DONE]" then (some ⟨"", true⟩, true)
    else
      match parse data with
      | .malformed => (none, false)
      | .parsed none => (none, false)
      | .parsed (some delta) =>
          if delta = "" then (none, false) else (some ⟨delta, false⟩, false)
  else (none, false)

/-- The loop over the complete lines of one network chunk: chunks emitted in
order; on `[DONE]` the terminator is emitted and everything after it (in
this chunk and the rest of the stream) is discarded. -/
def emitLines (parse : String → SseParse) :
    List String → List StreamChunk × Bool
  | [] => ([], false)
  | l :: ls =>
      match emitLine parse l with
      | (oc, true) => (oc.toList, true)
      | (oc, false) =>
          let r := emitLines parse ls
          (oc.toList ++ r.1, r.2)

/-- The read loop of `streamChat`: each decoded upstream chunk is appended
to the carry buffer, the result is split on newlines, the final fragment
becomes the new buffer and the complete lines are processed; when the
reader is exhausted a final `{text:'', isComplete:true}` chunk is
yielded. -/
def streamRun (parse : String → SseParse) :
    List String → String → List StreamChunk
  | [], _buffer => [⟨"", true⟩]
  | c :: rest, buffer =>
      let parts := jsSplit (buffer ++ c) '\n'
      let r := emitLines parse parts.dropLast
      if r.2 then r.1
      else r.1 ++ streamRun parse rest (parts.getLastD "")

/-- `streamChat` on a whole upstream stream (UTF-8 already decoded into text
chunks), starting from the empty buffer. -/
def streamChat (parse : String → SseParse) (chunks : List String) :
    List StreamChunk :=
  streamRun parse chunks ""

/-! ### Headers and the X402 payment gate (`supabase.ts`, x402 part) -/

/-- Fetch-API `Headers`, modelled as a case-insensitive map (keys stored
lower-cased). -/
def HeadersMap : Type := String → Option String

/-- ASCII lower-casing of a header name (computes by structural
recursion, unlike `String.toLower`). -/
def jsToLower (s : String) : String :=
  (s.toList.map Char.toLower).asString

/-- `headers.get(name)` (case-insensitive). -/
def hGet (h : HeadersMap) (name : String) : Option String :=
  h (jsToLower name)

/-- `headers.set(name, value)` (case-insensitive; overwrites). -/
def hSet (h : HeadersMap) (name value : String) : HeadersMap :=
  fun k => if k = jsToLower name then some value else h k

/-- The empty header map. -/
def emptyHeaders : HeadersMap := fun _ => none

/-- `X402PaymentHandler.extractPaymentHeader`: `headers.get('X-PAYMENT')`. -/
def extractPaymentHeader (headers : HeadersMap) : Option String :=
  hGet headers "X-PAYMENT"

structure X402Config where
  network : String
  treasuryWallet : String
  baseUrl : String
  facilitatorUrl : String
  facilitatorFeePayer : String
  usdcMint : String
deriving DecidableEq

/-- `USDC_MINT_ADDRESSES[network]` (network is "solana" or "solana-devnet"
when looked up). -/
def usdcMintAddress (network : String) : String :=
  if network = "solana" then "EPjFWdd5AufqSSqeM2qN1xzybapC8G4wEGGkZwyTDt1v"
  else "4zMMC9srt5Ri5X14GAgXhaHii3GnPAEERYPJgZJDncDU"

/-- `getX402Config()`: network selection, treasury resolution (placeholder
address outside production), base/facilitator URLs and fee payer; throws
(`Except.error`) exactly when `TREASURY_WALLET_ADDRESS` is falsy and
`NODE_ENV` is "production". -/
def getX402Config (env : Env) : Except String X402Config :=
  let networkEnv :=
    jsOr (env "NEXT_PUBLIC_NETWORK") (jsOr (env "NEXT_PUBLIC_SOLANA_NETWORK") "")
  let network :=
    if networkEnv = "solana" ∨ networkEnv = "solana-devnet" then networkEnv
    else "solana-devnet"
  let treasuryWallet := env "TREASURY_WALLET_ADDRESS"
  let baseUrl := jsOr (env "NEXT_PUBLIC_BASE_URL") "http://localhost:3000"
  let facilitatorUrl :=
    jsOr (env "X402_FACILITATOR_URL")
      (jsOr (env "FACILITATOR_URL") "https://facilitator.payai.network")
  let facilitatorFeePayer :=
    jsOrO (env "X402_FACILITATOR_FEE_PAYER")
      (jsOrO (env "NEXT_PUBLIC_X402_FEE_PAYER") (env "FACILITATOR_FEE_PAYER"))
  let isProduction := env "NODE_ENV" = some "production"
  let resolvedTreasury := jsOr treasuryWallet "11111111111111111111111111111111"
  if treasuryWallet.getD "" = "" ∧ isProduction then
    .error "TREASURY_WALLET_ADDRESS environment variable is required"
  else
    .ok { network := network
          treasuryWallet := resolvedTreasury
          baseUrl := baseUrl
          facilitatorUrl := facilitatorUrl
          facilitatorFeePayer := jsOr facilitatorFeePayer resolvedTreasury
          usdcMint := usdcMintAddress network }

structure PaymentRequirements where
  scheme : String
  network : String
  maxAmountRequired : String
  resource : String
  description : String
  mimeType : String
  payTo : String
  maxTimeoutSeconds : Nat
  asset : String
  extraFeePayer : Option String
deriving DecidableEq

/-- `AI_MODEL_PRICING[model].name`. -/
def modelDisplayName : AIModel → String
  | .gpt5 => "GPT-5"
  | .claude => "Claude 4.5 Sonnet"
  | .deepseek => "Deepseek Chat"

/-- The requirements record `createChatPaymentRequirements` builds from a
resolved configuration. -/
def chatRequirements (env : Env) (config : X402Config) (model : AIModel)
    (hasVision : Bool) (endpoint : String) : PaymentRequirements :=
  { scheme := "exact"
    network := config.network
    maxAmountRequired := getModelPrice env model hasVision
    resource := config.baseUrl ++ endpoint
    description := "AI Chat - " ++ modelDisplayName model ++ " " ++
      (if hasVision then "(Vision)" else "")
    mimeType := "application/json"
    payTo := config.treasuryWallet
    maxTimeoutSeconds := 300
    asset := config.usdcMint
    extraFeePayer := some config.facilitatorFeePayer }

/-- `createChatPaymentRequirements(model, hasVision, endpoint)`. -/
def createChatPaymentRequirements (env : Env) (model : AIModel)
    (hasVision : Bool) (endpoint : String) : Except String PaymentRequirements :=
  (getX402Config env).map fun config =>
    chatRequirements env config model hasVision endpoint

/-- `getX402Config` result for an environment with none of its variables
set (development defaults). -/
def devConfig : X402Config :=
  { network := "solana-devnet"
    treasuryWallet := "11111111111111111111111111111111"
    baseUrl := "http://localhost:3000"
    facilitatorUrl := "https://facilitator.payai.network"
    facilitatorFeePayer := "11111111111111111111111111111111"
    usdcMint := "4zMMC9srt5Ri5X14GAgXhaHii3GnPAEERYPJgZJDncDU" }

/-- JSON shape of a `/verify` facilitator response (all fields
absent-tolerant). -/
structure FacVerifyResponse where
  isValid : Option Bool
  error : Option String
  invalidReason : Option String
  payer : Option String

/-- JSON shape of a `/settle` facilitator response. -/
structure FacSettleResponse where
  success : Option Bool
  error : Option String
  transaction : Option String
  amount : Option String
  networkId : Option String

/-- Outcome of one facilitator HTTP call: a transport error, a non-2xx
response, or a 2xx response with a JSON body. -/
inductive FacOutcome (α : Type) where
  | transportError
  | httpError (status : Nat)
  | ok (resp : α)

def FacOutcome.isFailure {α : Type} : FacOutcome α → Bool
  | .ok _ => false
  | _ => true

/-- `callFacilitator`: a non-2xx status throws
`Facilitator API error: <status>`, a transport error is re-thrown; the
thrown exception is modelled as `Except.error`. -/
def callFacilitator {α : Type} (outcome : FacOutcome α) : Except String α :=
  match outcome with
  | .transportError => .error "Unknown facilitator error"
  | .httpError status => .error ("Facilitator API error: " ++ toString status)
  | .ok resp => .ok resp

structure VerificationResult where
  isValid : Bool
  error : Option String
  invalidReason : Option String
  payer : Option String
deriving DecidableEq

structure SettlementResult where
  success : Bool
  transaction : Option String
  amount : Option String
  error : Option String
  networkId : Option String
deriving DecidableEq

/-- `X402PaymentHandler.verifyPayment`: builds the requirements, decodes the
header (`headerParses` tells whether `JSON.parse(decodeBase64(...))`
succeeds), POSTs to `/verify`; any exception in the `try` block —
configuration, decoding or facilitator — is caught and folded into
`{isValid:false, error:'Payment verification failed'}`. -/
def verifyPayment (env : Env) (model : AIModel) (hasVision : Bool)
    (endpoint : String) (headerParses : Bool)
    (fac : FacOutcome FacVerifyResponse) : VerificationResult :=
  match createChatPaymentRequirements env model hasVision endpoint with
  | .error _ =>
      { isValid := false, error := some "Payment verification failed"
        invalidReason := none, payer := none }
  | .ok _ =>
      if headerParses then
        match callFacilitator fac with
        | .error _ =>
            { isValid := false, error := some "Payment verification failed"
              invalidReason := none, payer := none }
        | .ok result =>
            { isValid := result.isValid.getD false
              error := result.error
              invalidReason := result.invalidReason
              payer := result.payer }
      else
        { isValid := false, error := some "Payment verification failed"
          invalidReason := none, payer := none }

/-- `X402PaymentHandler.settlePayment`: same folding shape as
`verifyPayment`, POSTing to `/settle`. -/
def settlePayment (env : Env) (model : AIModel) (hasVision : Bool)
    (endpoint : String) (headerParses : Bool)
    (fac : FacOutcome FacSettleResponse) : SettlementResult :=
  match createChatPaymentRequirements env model hasVision endpoint with
  | .error _ =>
      { success := false, transaction := none, amount := none
        error := some "Payment settlement failed", networkId := none }
  | .ok _ =>
      if headerParses then
        match callFacilitator fac with
        | .error _ =>
            { success := false, transaction := none, amount := none
              error := some "Payment settlement failed", networkId := none }
        | .ok result =>
            { success := result.success.getD false
              transaction := result.transaction
              amount := result.amount
              error := result.error
              networkId := result.networkId }
      else
        { success := false, transaction := none, amount := none
          error := some "Payment settlement failed", networkId := none }

/-- Body of a 402 response:
`{x402Version: 1, error, accepts: [requirements]}`. -/
structure Body402 where
  x402Version : Nat
  error : String
  accepts : List PaymentRequirements
deriving DecidableEq

structure GateResponse where
  status : Nat
  body : Body402
deriving DecidableEq

/-- `X402PaymentHandler.create402Response`. -/
def create402Response (env : Env) (model : AIModel) (hasVision : Bool)
    (endpoint : String) (error : Option String) : Except String GateResponse :=
  (createChatPaymentRequirements env model hasVision endpoint).map
    fun requirements =>
      { status := 402
        body := { x402Version := 1
                  error := jsOr error "Payment required"
                  accepts := [requirements] } }

/-- Observable calls made while serving one request. -/
inductive GateEvent where
  | verify
  | settle
  | handler
deriving DecidableEq

/-- Return value of `handlePaymentFlow`. -/
structure FlowResult where
  success : Bool
  response : Option GateResponse
  settlementResult : Option SettlementResult
  paymentAmount : Option String
deriving DecidableEq

/-- `X402PaymentHandler.handlePaymentFlow`, instrumented with the list of
facilitator (`verify` / `settle`) calls it makes.  An uncaught exception
(only possible while building a 402 body when the configuration throws) is
the `Except.error` case of the first component. -/
def handlePaymentFlow (env : Env) (model : AIModel) (hasVision : Bool)
    (endpoint : String) (headers : HeadersMap) (headerParses : Bool)
    (facVerify : FacOutcome FacVerifyResponse)
    (facSettle : FacOutcome FacSettleResponse) :
    Except String FlowResult × List GateEvent :=
  match extractPaymentHeader headers with
  | none =>
      ((create402Response env model hasVision endpoint none).map
          (fun r => { success := false, response := some r
                      settlementResult := none, paymentAmount := none }),
        [])
  | some _ =>
      let verification := verifyPayment env model hasVision endpoint headerParses facVerify
      if verification.isValid = false then
        ((create402Response env model hasVision endpoint
              (some ("Payment verification failed: " ++ jsShow verification.error))).map
            (fun r => { success := false, response := some r
                        settlementResult := none, paymentAmount := none }),
          [.verify])
      else
        let settlement := settlePayment env model hasVision endpoint headerParses facSettle
        if settlement.success = false then
          ((create402Response env model hasVision endpoint
                (some ("Payment settlement failed: " ++ jsShow settlement.error))).map
              (fun r => { success := false, response := some r
                          settlementResult := none, paymentAmount := none }),
            [.verify, .settle])
        else
          (.ok { success := true, response := none
                 settlementResult := some settlement
                 paymentAmount := some (getModelPrice env model hasVision) },
            [.verify, .settle])

/-- The `withX402Payment` middleware, instrumented: OPTIONS short-circuits;
otherwise the payment flow runs and the wrapped handler is invoked exactly
when the flow granted access (`paymentResult.success`); a thrown exception
is caught by the middleware (500 response) without invoking the handler. -/
def withX402PaymentTrace (env : Env) (model : AIModel) (hasVision : Bool)
    (endpoint : String) (method : String) (headers : HeadersMap)
    (headerParses : Bool) (facVerify : FacOutcome FacVerifyResponse)
    (facSettle : FacOutcome FacSettleResponse) : List GateEvent :=
  if method = "OPTIONS" then []
  else
    match handlePaymentFlow env model hasVision endpoint headers headerParses
        facVerify facSettle with
    | (.error _, tr) => tr
    | (.ok res, tr) => if res.success then tr ++ [.handler] else tr

/-! ### Chat request validation (`route.ts`) -/

/-- The character class `[\w.+-]` of `isValidDataUrl`. -/
def isMimeChar (c : Char) : Bool :=
  isWordChar c || c = '.' || c = '+' || c = '-'

/-- The payload class `[A-Za-z0-9+/=\s]` of `isValidDataUrl`. -/
def isB64UrlChar (c : Char) : Bool :=
  c.isAlpha || c.isDigit || c = '+' || c = '/' || c = '=' || isJsWs c

/-- Case-insensitive variant of `dropPat?` (for the `/i` flag). -/
def dropPatCI? : List Char → List Char → Option (List Char)
  | l, [] => some l
  | [], _ :: _ => none
  | c :: cs, p :: ps =>
      if c.toLower = p.toLower then dropPatCI? cs ps else none

/-- `isValidDataUrl`:
`/^data:[\w.+-]+\/[\w.+-]+;base64,[A-Za-z0-9+/=\s]+$/i` (greedy matching
is deterministic because `/` and `;` are outside the repeated classes). -/
def isValidDataUrl (s : String) : Bool :=
  match dropPatCI? s.toList "data:".toList with
  | none => false
  | some r1 =>
      let t1 := r1.takeWhile isMimeChar
      let r2 := r1.dropWhile isMimeChar
      if t1.isEmpty then false
      else
        match r2 with
        | '/' :: r3 =>
            let t2 := r3.takeWhile isMimeChar
            let r4 := r3.dropWhile isMimeChar
            if t2.isEmpty then false
            else
              match dropPatCI? r4 ";base64,".toList with
              | none => false
              | some payload => !payload.isEmpty && payload.all isB64UrlChar
        | _ => false

/-- One raw element of the request `files[]` array: `none` fields model a
missing / non-string (for `name`, `type`, `dataUrl`) or non-finite (for
`size`) value. -/
structure AttachmentPayload where
  name : Option String
  type : Option String
  size : Option ℚ
  dataUrl : Option String
deriving DecidableEq

structure NormalizedAttachment where
  fileName : String
  mimeType : String
  size : ℚ
  dataUrl : String
deriving DecidableEq

/-- `5 * 1024 * 1024` (written as a literal so it computes by `decide`). -/
def MAX_ATTACHMENT_BYTES : ℚ := 5242880

def MAX_ATTACHMENTS : Nat := 4

/-- The loop of `normalizeAttachments`: invalid entries (empty trimmed
name, non-finite / non-positive / oversized size, empty or non-matching
dataUrl) are skipped with `continue`; the loop breaks once
`MAX_ATTACHMENTS` entries have been accepted.  `count` is the number of
entries accepted so far. -/
def normalizeGo : List AttachmentPayload → Nat → List NormalizedAttachment
  | [], _ => []
  | entry :: rest, count =>
      let name := jsTrim (entry.name.getD "")
      let type := entry.type.getD "application/octet-stream"
      let dataUrl := entry.dataUrl.getD ""
      match entry.size with
      | none => normalizeGo rest count
      | some size =>
          if name = "" ∨ size ≤ 0 ∨ size > MAX_ATTACHMENT_BYTES then
            normalizeGo rest count
          else if dataUrl = "" ∨ isValidDataUrl dataUrl = false then
            normalizeGo rest count
          else
            let na : NormalizedAttachment :=
              { fileName := name
                mimeType := if type = "" then "application/octet-stream" else type
                size := size
                dataUrl := dataUrl }
            if count + 1 ≥ MAX_ATTACHMENTS then [na]
            else na :: normalizeGo rest (count + 1)

/-- `normalizeAttachments(input)` (an absent or empty array yields `[]`). -/
def normalizeAttachments (input : List AttachmentPayload) : List NormalizedAttachment :=
  normalizeGo input 0

/-- `$` of `/\s+$/m` at offset `e` of `l`: end of input or just before a
newline. -/
def dollarAt (l : List Char) (e : Nat) : Bool :=
  match l.drop e with
  | [] => true
  | c :: _ => c = '\n'

/-- Longest `e' ≤ e` (at least 1) with `dollarAt l e'`; 0 when none. -/
def wsMatchDown (l : List Char) : Nat → Nat
  | 0 => 0
  | e + 1 => if dollarAt l (e + 1) then e + 1 else wsMatchDown l e

/-- Length matched by one attempt of `/\s+$/m` at the head of `l` (0 when
the attempt fails): greedy `\s+` over the whitespace run, backtracking
until the multiline `$` holds. -/
def wsMatchLen (l : List Char) : Nat :=
  wsMatchDown l (l.takeWhile isJsWs).length

/-- The global replacement `replace(/\s+$/gm, '')`, written with explicit
fuel so that it computes by structural recursion; one step either consumes
the matched run (length ≥ 1) or moves one character forward, so
`fuel = l.length` always suffices. -/
def replaceWsEolFuel : Nat → List Char → List Char
  | _, [] => []
  | 0, l => l
  | fuel + 1, c :: cs =>
      if isJsWs c then
        let e := wsMatchLen (c :: cs)
        if 1 ≤ e then replaceWsEolFuel fuel ((c :: cs).drop e)
        else c :: replaceWsEolFuel fuel cs
      else c :: replaceWsEolFuel fuel cs

def replaceWsEol (l : List Char) : List Char :=
  replaceWsEolFuel l.length l

/-- `sanitizeUserMessage`:
`input.replace(/\r/g, '').replace(/\s+$/gm, '').trim()`. -/
def sanitizeUserMessage (input : String) : String :=
  jsTrim (replaceWsEol (input.toList.filter (fun c => c ≠ '\r'))).asString

/-- The supported-model list of `handleChatRequest`. -/
def validModels : List String := ["deepseek", "gpt-5", "claude-sonnet-4-5"]

/-- Outcome of the validation phase of `handleChatRequest`. -/
inductive ValidationOutcome where
  | reject (status : Nat) (error : String)
  | proceed (attachments : List NormalizedAttachment) (sanitizedMessage : String)
deriving DecidableEq

/-- The validation phase of `handleChatRequest` (up to the clamping step):
attachment normalization, the missing-content 400, the unknown-model 400
and the empty-after-sanitization 422.  `proceed` is the state in which the
handler goes on to load history and call the provider (the `chatId`
history branch talks to the persistence collaborator and is outside this
model). -/
def validateChatRequest (walletAddress : Option String)
    (message : Option String) (files : List AttachmentPayload)
    (model : String) : ValidationOutcome :=
  let attachments := normalizeAttachments files
  let rawMessage := message.getD ""
  if walletAddress.getD "" = "" ∨ (rawMessage = "" ∧ attachments = []) then
    .reject 400 "Missing content. Provide a message or at least one attachment."
  else if ¬ (model ∈ validModels) then
    .reject 400 "Invalid model. Available: deepseek, gpt-5, claude-sonnet-4-5"
  else
    let sanitized := sanitizeUserMessage rawMessage
    if sanitized = "" ∧ attachments = [] then
      .reject 422 "Message cannot be empty after sanitization."
    else
      .proceed attachments sanitized

/-- An attachment over the 5 MiB limit (6 MiB) but otherwise fully
well-formed. -/
def oversizedAttachment : AttachmentPayload :=
  { name := some "big.png", type := some "image/png"
    size := some 6291456, dataUrl := some "data:image/png;base64,AAAA" }

/-- An attachment whose `dataUrl` does not match the strict pattern. -/
def malformedAttachment : AttachmentPayload :=
  { name := some "weird.bin", type := some "application/octet-stream"
    size := some 10, dataUrl := some "http://example.com/not-a-data-url" }

/-! ### Payment receipt headers (`X402PaymentHandler.addPaymentResponseHeaders`) -/

/-- A fetch-API `Response` as far as this code observes it. -/
structure WebResponse where
  status : Nat
  statusText : String
  headers : HeadersMap
  body : String

def hexDigit (n : Nat) : Char :=
  "0123456789abcdef".toList.getD n '0'

/-- `JSON.stringify` escaping of one character of a string value. -/
def jsonEscapeChar (c : Char) : String :=
  if c = '"' then "\\\""
  else if c = '\\' then "\\\\"
  else if c = '\x08' then "\\b"
  else if c = '\t' then "\\t"
  else if c = '\n' then "\\n"
  else if c = '\x0c' then "\\f"
  else if c = '\r' then "\\r"
  else if c.toNat < 32 then
    "\\u00" ++ String.singleton (hexDigit (c.toNat / 16)) ++
      String.singleton (hexDigit (c.toNat % 16))
  else String.singleton c

def jsonEscape (s : String) : String :=
  String.join (s.toList.map jsonEscapeChar)

/-- `JSON.stringify` of the payment-response object
`{success: true, transaction, network, amount, timestamp}` (insertion
order preserved). -/
def paymentResponseJson (transaction network amount timestamp : String) : String :=
  "\x7b\"success\":true,\"transaction\":\"" ++ jsonEscape transaction ++
    "\",\"network\":\"" ++ jsonEscape network ++
    "\",\"amount\":\"" ++ jsonEscape amount ++
    "\",\"timestamp\":\"" ++ jsonEscape timestamp ++ "\"\x7d"

def b64Char (n : Nat) : Char :=
  "ABCDEFGHIJKLMNOPQRSTUVWXYZabcdefghijklmnopqrstuvwxyz0123456789+/".toList.getD n 'A'

def base64Chunks : List Nat → List Char
  | [] => []
  | [a] => [b64Char (a / 4), b64Char (a % 4 * 16), '=', '=']
  | [a, b] => [b64Char (a / 4), b64Char (a % 4 * 16 + b / 16), b64Char (b % 16 * 4), '=']
  | a :: b :: c :: rest =>
      b64Char (a / 4) :: b64Char (a % 4 * 16 + b / 16) ::
        b64Char (b % 16 * 4 + c / 64) :: b64Char (c % 64) :: base64Chunks rest

/-- `btoa` (inputs here are ASCII JSON strings). -/
def btoa (s : String) : String :=
  (base64Chunks (s.toList.map (fun c => c.toNat % 256))).asString

/-- `X402PaymentHandler.addPaymentResponseHeaders(response, settlement)`:
when `settlement.success && settlement.transaction` (JavaScript
truthiness: an empty transaction string is falsy) it rebuilds the response
with the same status/statusText/body and with `X-PAYMENT-RESPONSE` (base64
of the stringified receipt) and `Access-Control-Expose-Headers` set on a
copy of the headers; otherwise it returns the response unchanged.
`network` is `this.config.network`; `timestamp` is the
`new Date().toISOString()` value, passed in as a parameter. -/
def addPaymentResponseHeaders (network : String) (response : WebResponse)
    (settlement : SettlementResult) (timestamp : String) : WebResponse :=
  match settlement.success, settlement.transaction with
  | true, some transaction =>
      if transaction = "" then response
      else
        { status := response.status
          statusText := response.statusText
          body := response.body
          headers :=
            hSet
              (hSet response.headers "X-PAYMENT-RESPONSE"
                (btoa (paymentResponseJson transaction network
                  (jsOr settlement.amount "0") timestamp)))
              "Access-Control-Expose-Headers" "X-PAYMENT-RESPONSE" }
  | _, _ => response

/-! ## Theorems -/

theorem dropPat?_eq_some {l pat rest : List Char}
    (h : dropPat? l pat = some rest) : l = pat ++ rest := by
  induction pat generalizing l with
  | nil =>
    cases l <;> simp_all [dropPat?]
  | cons p ps ih =>
    cases l with
    | nil => simp [dropPat?] at h
    | cons c cs =>
      by_cases hc : c = p
      · subst hc
        simp only [dropPat?, if_pos rfl] at h
        simpa using ih h
      · simp [dropPat?, hc] at h

theorem dropPat?_append (pat rest : List Char) :
    dropPat? (pat ++ rest) pat = some rest := by
  induction pat with
  | nil => simp [dropPat?]
  | cons p ps ih => simp [dropPat?, ih]

theorem matchDataImageUrl_startsWith {url : String} {r : String × String}
    (h : matchDataImageUrl url = some r) : jsStartsWith url "data:" = true := by
  unfold matchDataImageUrl at h
  rcases hd : dropPat? url.toList "data:image/".toList with _ | rest
  · rw [hd] at h; exact absurd h (by simp)
  · have hurl : url.toList = "data:image/".toList ++ rest := dropPat?_eq_some hd
    have hsplit : "data:image/".toList = "data:".toList ++ "image/".toList := by decide
    have : url.toList = "data:".toList ++ ("image/".toList ++ rest) := by
      rw [hurl, hsplit, List.append_assoc]
    unfold jsStartsWith
    rw [this, dropPat?_append]
    rfl

theorem toAnthropicPart_eq_spec (p : ContentPart) :
    toAnthropicPart p = anthropicPartSpec p := by
  cases p with
  | text t => rfl
  | image url d =>
    unfold toAnthropicPart anthropicPartSpec
    rcases hm : matchDataImageUrl url with _ | r
    · simp [hm]
    · simp [hm, matchDataImageUrl_startsWith hm]

/-- C4, counterexample: with `PRICE_GPT=200000` and `PRICE_VISION_ADDON` unset,
the gpt-5 vision price ("150000", the fallback) is strictly below the base
price ("200000"), so `price(m, hasVision)` is not monotonic for every
environment: the claim as stated is false. -/
theorem c4_counterexample :
    decVal (getModelPrice envGptOverride .gpt5 true) <
      decVal (getModelPrice envGptOverride .gpt5 false) := by
  decide

/-- C4, amended: `getModelPrice` is deterministic (it is a pure function of
the environment, the model and the vision flag: two lookups with the same
arguments agree), and in every environment that leaves the five pricing
variables unset (so the fixed fallback constants apply), the vision price is
numerically greater than or equal to the base price for every model. -/
theorem c4_price_deterministic_and_monotonic (env : Env) (model : AIModel)
    (hGpt : env "PRICE_GPT" = none)
    (hClaude : env "PRICE_CLAUDE" = none)
    (hDeep : env "PRICE_DEEPSEEK" = none)
    (hVision : env "PRICE_VISION_ADDON" = none)
    (hDeepV : env "PRICE_DEEPSEEK_VISION" = none) :
    (∀ (env' : Env) (m : AIModel) (v : Bool),
        getModelPrice env' m v = getModelPrice env' m v) ∧
      decVal (getModelPrice env model false) ≤ decVal (getModelPrice env model true) := by
  refine ⟨fun _ _ _ => rfl, ?_⟩
  cases model <;>
    simp [getModelPrice, pricePerMessage, visionPrice, getPrice, hGpt, hClaude,
      hDeep, hVision, hDeepV] <;> decide

/-- C4 witness: the monotonicity part applied at the all-unset environment
for each of the three models. -/
theorem c4_witness :
    decVal (getModelPrice emptyEnv .gpt5 false) ≤ decVal (getModelPrice emptyEnv .gpt5 true) ∧
    decVal (getModelPrice emptyEnv .claude false) ≤ decVal (getModelPrice emptyEnv .claude true) ∧
    decVal (getModelPrice emptyEnv .deepseek false) ≤ decVal (getModelPrice emptyEnv .deepseek true) :=
  ⟨(c4_price_deterministic_and_monotonic emptyEnv .gpt5 rfl rfl rfl rfl rfl).2,
   (c4_price_deterministic_and_monotonic emptyEnv .claude rfl rfl rfl rfl rfl).2,
   (c4_price_deterministic_and_monotonic emptyEnv .deepseek rfl rfl rfl rfl rfl).2⟩

/-- C5, counterexample: for the array content `[{type:"text", text:""}]`
(one text part, no image part) the conversion yields the placeholder, yet
the claim allows the placeholder only when there are zero text parts and at
least one image part — `textParts.join('\n') || placeholder` falls back on
any empty join, not only in the zero-text/some-image case. -/
theorem c5_counterexample :
    toTextOnlyContent [ContentPart.text ""] = imagesPlaceholder ∧
      ¬(textParts [ContentPart.text ""] = [] ∧
        imageParts [ContentPart.text ""] ≠ []) := by
  constructor
  · decide
  · decide

/-- C5, amended: the text-only conversion returns the newline-join of the
text parts whenever that join is non-empty, and the fixed "images
unsupported" placeholder exactly when the join is empty (in particular for
content with zero text parts, e.g. only image parts); the result is never
the empty string, and `[text "hi", image]` converts to exactly "hi". -/
theorem c5_text_only_conversion (ps : List ContentPart)
    (u : String) (d : Option String) :
    toTextOnlyContent ps ≠ "" ∧
    (joinedTexts ps ≠ "" → toTextOnlyContent ps = joinedTexts ps) ∧
    (joinedTexts ps = "" → toTextOnlyContent ps = imagesPlaceholder) ∧
    (textParts ps = [] → toTextOnlyContent ps = imagesPlaceholder) ∧
    toTextOnlyContent [ContentPart.text "hi", ContentPart.image u d] = "hi" := by
  refine ⟨?_, ?_, ?_, ?_, ?_⟩
  · unfold toTextOnlyContent
    split
    · decide
    · assumption
  · intro h
    simp [toTextOnlyContent, h]
  · intro h
    simp [toTextOnlyContent, h]
  · intro h
    have hj : joinedTexts ps = "" := by
      rw [joinedTexts, h]; decide
    simp [toTextOnlyContent, hj]
  · have hj : joinedTexts [ContentPart.text "hi", ContentPart.image u d] = "hi" := by
      rw [joinedTexts]
      have : textParts [ContentPart.text "hi", ContentPart.image u d] = ["hi"] := by
        simp [textParts]
      rw [this]; decide
    simp [toTextOnlyContent, hj]

/-- C5 witness: image-only content converts to the placeholder, and the
`[text "hi", image]` scenario converts to exactly "hi". -/
theorem c5_witness :
    toTextOnlyContent [ContentPart.image "https://example.com/a.png" none] =
        imagesPlaceholder ∧
      toTextOnlyContent
        [ContentPart.text "hi",
         ContentPart.image "data:image/png;base64,AAAA" none] = "hi" :=
  ⟨(c5_text_only_conversion [ContentPart.image "https://example.com/a.png" none]
      "u" none).2.2.2.1 (by decide),
   (c5_text_only_conversion [] "data:image/png;base64,AAAA" none).2.2.2.2⟩

/-- C6, confirmed: the typed-block (Anthropic) conversion maps each text
part to a text block and each image part to an image block whose source is
base64 (with the parsed media type and payload) exactly when the URL matches
the fixed `data:<image mime>;base64,<data>` pattern, and a plain url source
otherwise; in particular the scenario array
`[text "hi", image "data:image/png;base64,AAAA"]` yields a text block "hi"
followed by a base64 image block with media type "image/png" and data
"AAAA". -/
theorem c6_anthropic_conversion (ps : List ContentPart) :
    toAnthropicContent ps = ps.map anthropicPartSpec ∧
      toAnthropicContent
        [ContentPart.text "hi",
         ContentPart.image "data:image/png;base64,AAAA" none] =
        [AnthropicBlock.text "hi",
         AnthropicBlock.image (.base64 "image/png" "AAAA")] := by
  constructor
  · unfold toAnthropicContent
    rw [funext toAnthropicPart_eq_spec]
  · decide

/-- C7, counterexample: the orchestrator clamps temperature 0 to 0 (it is in
[0,2]), but the Deepseek adapter body rewrites it to the default 0.7 via
`config.temperature || 0.7` — the clamped value is not passed through
unmodified, so the claim fails at temperature = 0. -/
theorem c7_counterexample :
    resolvedTemperature 0 = 0 ∧
      (deepseekChatBody
          { model := .deepseek, messages := [],
            temperature := some (resolvedTemperature 0),
            maxTokens := some (resolvedMaxTokens 1024),
            systemPrompt := none }).temperature = 7 / 10 ∧
      (7 : ℚ) / 10 ≠ 0 := by
  refine ⟨?_, ?_, by norm_num⟩
  · simp [resolvedTemperature]
  · norm_num [deepseekChatBody, jsOrNum, resolvedTemperature]

/-- C7, amended: the orchestrator clamps temperature to [0,2] and maxTokens
to [256,2048]; the Deepseek and GPT-5 adapters pass the clamped maxTokens
through unmodified (it is at least 256, hence truthy) and pass the clamped
temperature through unmodified whenever it is non-zero — a clamped
temperature of exactly 0 is replaced by the adapter default 0.7. -/
theorem c7_clamping_and_passthrough (t mt : ℚ) (msgs : List ChatMessage)
    (sp : Option String) (ht : resolvedTemperature t ≠ 0) :
    0 ≤ resolvedTemperature t ∧ resolvedTemperature t ≤ 2 ∧
    256 ≤ resolvedMaxTokens mt ∧ resolvedMaxTokens mt ≤ 2048 ∧
    (deepseekChatBody
        { model := .deepseek, messages := msgs,
          temperature := some (resolvedTemperature t),
          maxTokens := some (resolvedMaxTokens mt),
          systemPrompt := sp }).temperature = resolvedTemperature t ∧
    (deepseekChatBody
        { model := .deepseek, messages := msgs,
          temperature := some (resolvedTemperature t),
          maxTokens := some (resolvedMaxTokens mt),
          systemPrompt := sp }).max_tokens = resolvedMaxTokens mt ∧
    (gpt5ChatBody
        { model := .gpt5, messages := msgs,
          temperature := some (resolvedTemperature t),
          maxTokens := some (resolvedMaxTokens mt),
          systemPrompt := sp }).temperature = resolvedTemperature t ∧
    (gpt5ChatBody
        { model := .gpt5, messages := msgs,
          temperature := some (resolvedTemperature t),
          maxTokens := some (resolvedMaxTokens mt),
          systemPrompt := sp }).max_tokens = resolvedMaxTokens mt := by
  have hmt : (256 : ℚ) ≤ resolvedMaxTokens mt := by
    unfold resolvedMaxTokens
    exact le_min (le_max_right _ _) (by norm_num)
  have hmt0 : resolvedMaxTokens mt ≠ 0 := by
    intro h
    rw [h] at hmt
    norm_num at hmt
  refine ⟨?_, ?_, hmt, ?_, ?_, ?_, ?_, ?_⟩
  · exact le_min (le_max_right _ _) (by norm_num)
  · exact min_le_right _ _
  · exact min_le_right _ _
  · simp [deepseekChatBody, jsOrNum, ht]
  · simp [deepseekChatBody, jsOrNum, hmt0]
  · simp [gpt5ChatBody, jsOrNum, ht]
  · simp [gpt5ChatBody, jsOrNum, hmt0]

/-- C7 witness: the amended theorem applied at temperature 1 and
maxTokens 1024. -/
theorem c7_witness :
    (deepseekChatBody
        { model := .deepseek, messages := [],
          temperature := some (resolvedTemperature 1),
          maxTokens := some (resolvedMaxTokens 1024),
          systemPrompt := none }).temperature = resolvedTemperature 1 ∧
      (gpt5ChatBody
          { model := .gpt5, messages := [],
            temperature := some (resolvedTemperature 1),
            maxTokens := some (resolvedMaxTokens 1024),
            systemPrompt := none }).max_tokens = resolvedMaxTokens 1024 := by
  have h := c7_clamping_and_passthrough 1 1024 [] none
    (by norm_num [resolvedTemperature])
  exact ⟨h.2.2.2.2.1, h.2.2.2.2.2.2.2⟩

theorem emitLine_cases (parse : String → SseParse) (l : String) :
    emitLine parse l = (some ⟨"", true⟩, true) ∨
      emitLine parse l = (none, false) ∨
      ∃ s, s ≠ "" ∧ emitLine parse l = (some ⟨s, false⟩, false) := by
  unfold emitLine
  by_cases h1 : jsStartsWith l "data: " = true
  · by_cases h2 : jsTrim (jsSlice l 6) = "[DONE]"
    · simp [h1, h2]
    · rcases hp : parse (jsTrim (jsSlice l 6)) with _ | (_ | s)
      · simp [h1, h2, hp]
      · simp [h1, h2, hp]
      · by_cases h3 : s = ""
        · simp [h1, h2, hp, h3]
        · right; right
          exact ⟨s, h3, by simp [h1, h2, hp, h3]⟩
  · simp [h1]

theorem emitLines_all_incomplete (parse : String → SseParse) :
    ∀ ls : List String, (emitLines parse ls).2 = false →
      ∀ c ∈ (emitLines parse ls).1, c.isComplete = false := by
  intro ls
  induction ls with
  | nil => simp [emitLines]
  | cons l ls ih =>
    intro h2 c hc
    rcases emitLine_cases parse l with hE | hE | ⟨s, _, hE⟩
    · simp [emitLines, hE] at h2
    · simp [emitLines, hE] at hc h2
      exact ih h2 c hc
    · simp [emitLines, hE] at hc h2
      rcases hc with rfl | hc
      · rfl
      · exact ih h2 c hc

theorem emitLines_done (parse : String → SseParse) :
    ∀ ls : List String, (emitLines parse ls).2 = true →
      ∃ pre, (emitLines parse ls).1 = pre ++ [⟨"", true⟩] ∧
        ∀ c ∈ pre, c.isComplete = false := by
  intro ls
  induction ls with
  | nil => simp [emitLines]
  | cons l ls ih =>
    intro h2
    rcases emitLine_cases parse l with hE | hE | ⟨s, _, hE⟩
    · exact ⟨[], by simp [emitLines, hE], by simp⟩
    · simp only [emitLines, hE] at h2 ⊢
      obtain ⟨pre, hpre, hall⟩ := ih h2
      exact ⟨pre, by simpa using hpre, hall⟩
    · simp only [emitLines, hE] at h2 ⊢
      obtain ⟨pre, hpre, hall⟩ := ih h2
      refine ⟨⟨s, false⟩ :: pre, by simp [hpre], ?_⟩
      intro c hc
      rcases List.mem_cons.mp hc with rfl | hc
      · rfl
      · exact hall c hc

theorem streamRun_shape (parse : String → SseParse) :
    ∀ (chunks : List String) (buffer : String),
      ∃ pre, streamRun parse chunks buffer = pre ++ [⟨"", true⟩] ∧
        ∀ c ∈ pre, c.isComplete = false := by
  intro chunks
  induction chunks with
  | nil =>
    intro buffer
    exact ⟨[], by simp [streamRun], by simp⟩
  | cons c rest ih =>
    intro buffer
    rcases h2 : (emitLines parse (jsSplit (buffer ++ c) '\n').dropLast).2 with _ | _
    · obtain ⟨pre, hpre, hall⟩ :=
        ih ((jsSplit (buffer ++ c) '\n').getLastD "")
      refine ⟨(emitLines parse (jsSplit (buffer ++ c) '\n').dropLast).1 ++ pre,
        ?_, ?_⟩
      · simp only [streamRun, h2, Bool.false_eq_true, if_false, hpre,
          List.append_assoc]
      · intro x hx
        rcases List.mem_append.mp hx with hx | hx
        · exact emitLines_all_incomplete parse _ h2 x hx
        · exact hall x hx
    · obtain ⟨pre, hpre, hall⟩ := emitLines_done parse _ h2
      exact ⟨pre, by simp only [streamRun, h2, if_true, hpre], hall⟩

/-- C8, confirmed: for every upstream SSE stream and every behaviour of the
JSON parser, `streamChat` yields a finite sequence that is some incomplete
chunks followed by exactly one terminating `{isComplete:true}` chunk with
empty text, and nothing after it; a `data: [DONE]` line terminates the
sequence immediately (all later lines are discarded); a `data: ` line whose
trimmed payload is malformed JSON is skipped without emitting a chunk and
without ending the loop. -/
theorem c8_stream_chunks (parse : String → SseParse) :
    (∀ chunks : List String, ∃ pre,
        streamChat parse chunks = pre ++ [⟨"", true⟩] ∧
          ∀ c ∈ pre, c.isComplete = false) ∧
    (∀ ls : List String,
        emitLines parse ("data: [DONE]" :: ls) = ([⟨"", true⟩], true)) ∧
    (∀ line : String, jsStartsWith line "data: " = true →
        jsTrim (jsSlice line 6) ≠ "[DONE]" →
        parse (jsTrim (jsSlice line 6)) = .malformed →
        emitLine parse line = (none, false)) := by
  refine ⟨fun chunks => streamRun_shape parse chunks "", fun ls => ?_, ?_⟩
  · have h1 : jsStartsWith "data: [DONE]" "data: " = true := by decide
    have h2 : jsTrim (jsSlice "data: [DONE]" 6) = "[DONE]" := by decide
    simp [emitLines, emitLine, h1, h2]
  · intro line h1 h2 h3
    simp [emitLine, h1, h2, h3]

/-- C8 witness: the theorem applied to the always-malformed parser — the
whole-stream shape at a concrete two-chunk stream, the `[DONE]` shortcut,
and the malformed-line skip at the concrete line `data: notjson`. -/
theorem c8_witness :
    (∃ pre, streamChat (fun _ => SseParse.malformed)
        ["data: a\nda", "ta: b\n"] = pre ++ [⟨"", true⟩] ∧
          ∀ c ∈ pre, c.isComplete = false) ∧
      emitLines (fun _ => SseParse.malformed) ["data: [DONE]", "data: x"] =
        ([⟨"", true⟩], true) ∧
      emitLine (fun _ => SseParse.malformed) "data: notjson" = (none, false) :=
  ⟨(c8_stream_chunks (fun _ => SseParse.malformed)).1 ["data: a\nda", "ta: b\n"],
   (c8_stream_chunks (fun _ => SseParse.malformed)).2.1 ["data: x"],
   (c8_stream_chunks (fun _ => SseParse.malformed)).2.2 "data: notjson"
     (by decide) (by decide) rfl⟩

theorem createReq_eq {env : Env} {cfg : X402Config}
    (model : AIModel) (hasVision : Bool) (endpoint : String)
    (hcfg : getX402Config env = .ok cfg) :
    createChatPaymentRequirements env model hasVision endpoint =
      .ok (chatRequirements env cfg model hasVision endpoint) := by
  unfold createChatPaymentRequirements
  rw [hcfg]
  rfl

/-- C1, confirmed: on the instrumented event trace of one request through
`withX402Payment` / `handlePaymentFlow`, settle is called iff verify was
called and returned `isValid=true`; settle is called at most once and, when
called, comes immediately after the verify call; the wrapped handler runs
only when settlement succeeded, and then strictly after the settle call. -/
theorem c1_settle_iff_verified (env : Env) (model : AIModel) (hasVision : Bool)
    (endpoint method : String) (headers : HeadersMap) (hp : Bool)
    (facV : FacOutcome FacVerifyResponse) (facS : FacOutcome FacSettleResponse) :
    (GateEvent.settle ∈
        withX402PaymentTrace env model hasVision endpoint method headers hp facV facS ↔
      GateEvent.verify ∈
          withX402PaymentTrace env model hasVision endpoint method headers hp facV facS ∧
        (verifyPayment env model hasVision endpoint hp facV).isValid = true) ∧
    (withX402PaymentTrace env model hasVision endpoint method headers hp facV facS).count
        GateEvent.settle ≤ 1 ∧
    (GateEvent.settle ∈
        withX402PaymentTrace env model hasVision endpoint method headers hp facV facS →
      (withX402PaymentTrace env model hasVision endpoint method headers hp facV facS).take 2 =
        [GateEvent.verify, GateEvent.settle]) ∧
    (GateEvent.handler ∈
        withX402PaymentTrace env model hasVision endpoint method headers hp facV facS →
      (settlePayment env model hasVision endpoint hp facS).success = true ∧
        withX402PaymentTrace env model hasVision endpoint method headers hp facV facS =
          [GateEvent.verify, GateEvent.settle, GateEvent.handler]) := by
  by_cases hm : method = "OPTIONS"
  · simp [withX402PaymentTrace, hm]
  · rcases hh : extractPaymentHeader headers with _ | h
    · rcases hc : create402Response env model hasVision endpoint none with e | r <;>
        simp [withX402PaymentTrace, handlePaymentFlow, hm, hh, hc, Except.map]
    · cases hv : (verifyPayment env model hasVision endpoint hp facV).isValid with
      | false =>
        rcases hc : create402Response env model hasVision endpoint
            (some ("Payment verification failed: " ++
              jsShow (verifyPayment env model hasVision endpoint hp facV).error))
          with e | r <;>
          simp [withX402PaymentTrace, handlePaymentFlow, hm, hh, hv, hc, Except.map]
      | true =>
        cases hs : (settlePayment env model hasVision endpoint hp facS).success with
        | false =>
          rcases hc : create402Response env model hasVision endpoint
              (some ("Payment settlement failed: " ++
                jsShow (settlePayment env model hasVision endpoint hp facS).error))
            with e | r <;>
            simp [withX402PaymentTrace, handlePaymentFlow, hm, hh, hv, hs, hc, Except.map]
        | true =>
          simp [withX402PaymentTrace, handlePaymentFlow, hm, hh, hv, hs]

/-- C1 witness: a concrete granted request (payment header present, verify
and settle both succeed) — settle appears in the trace right after verify. -/
theorem c1_witness :
    (withX402PaymentTrace emptyEnv .deepseek false "/api/chat" "POST"
        (hSet emptyHeaders "X-PAYMENT" "eyJ4NDAyVmVyc2lvbiI6MX0=") true
        (.ok { isValid := some true, error := none, invalidReason := none,
               payer := some "payerWallet" })
        (.ok { success := some true, error := none, transaction := some "abc123",
               amount := some "100000", networkId := none })).take 2 =
      [GateEvent.verify, GateEvent.settle] :=
  (c1_settle_iff_verified emptyEnv .deepseek false "/api/chat" "POST"
      (hSet emptyHeaders "X-PAYMENT" "eyJ4NDAyVmVyc2lvbiI6MX0=") true
      (.ok { isValid := some true, error := none, invalidReason := none,
             payer := some "payerWallet" })
      (.ok { success := some true, error := none, transaction := some "abc123",
             amount := some "100000", networkId := none })).2.2.1 (by decide)

/-- C2, confirmed: a facilitator transport error or non-2xx response is
always folded into `{isValid:false, error}` by `verifyPayment` and
`{success:false, error}` by `settlePayment` — both functions are total, so
no exception reaches the gate boundary — and under a resolvable
configuration a request whose `/verify` call fails is answered by the gate
with a 402 response (never a 5xx). -/
theorem c2_facilitator_failure_folded (env : Env) (model : AIModel)
    (hasVision : Bool) (endpoint : String) (hp : Bool)
    (facV : FacOutcome FacVerifyResponse) (facS : FacOutcome FacSettleResponse)
    (headers : HeadersMap) (hdr : String)
    (hhdr : extractPaymentHeader headers = some hdr)
    (cfg : X402Config) (hcfg : getX402Config env = .ok cfg) :
    (facV.isFailure = true →
      verifyPayment env model hasVision endpoint hp facV =
        { isValid := false, error := some "Payment verification failed",
          invalidReason := none, payer := none }) ∧
    (facS.isFailure = true →
      settlePayment env model hasVision endpoint hp facS =
        { success := false, transaction := none, amount := none,
          error := some "Payment settlement failed", networkId := none }) ∧
    (facV.isFailure = true →
      ∃ res resp,
        handlePaymentFlow env model hasVision endpoint headers hp facV facS =
          (.ok res, [.verify]) ∧ res.success = false ∧
          res.response = some resp ∧ resp.status = 402) := by
  have hreq := createReq_eq model hasVision endpoint hcfg
  have hver : facV.isFailure = true →
      verifyPayment env model hasVision endpoint hp facV =
        { isValid := false, error := some "Payment verification failed",
          invalidReason := none, payer := none } := by
    intro hfail
    unfold verifyPayment
    rw [hreq]
    cases hp with
    | false => rfl
    | true =>
      cases facV with
      | transportError => rfl
      | httpError status => rfl
      | ok resp => simp [FacOutcome.isFailure] at hfail
  refine ⟨hver, ?_, ?_⟩
  · intro hfail
    unfold settlePayment
    rw [hreq]
    cases hp with
    | false => rfl
    | true =>
      cases facS with
      | transportError => rfl
      | httpError status => rfl
      | ok resp => simp [FacOutcome.isFailure] at hfail
  · intro hfail
    have hv := hver hfail
    have hflow : handlePaymentFlow env model hasVision endpoint headers hp facV facS =
        (.ok { success := false
               response := some
                 { status := 402
                   body := { x402Version := 1
                             error := "Payment verification failed: Payment verification failed"
                             accepts := [chatRequirements env cfg model hasVision endpoint] } }
               settlementResult := none
               paymentAmount := none },
          [.verify]) := by
      simp only [handlePaymentFlow, hhdr, hv, create402Response, hreq, Except.map]
      rfl
    exact ⟨_, _, hflow, rfl, rfl, rfl⟩

/-- C2 witness: the folding equations at a transport error and at an HTTP
503, plus the 402 response for a request whose `/verify` call fails, all in
the default development environment. -/
theorem c2_witness :
    verifyPayment emptyEnv .deepseek false "/api/chat" true .transportError =
      { isValid := false, error := some "Payment verification failed",
        invalidReason := none, payer := none } ∧
    settlePayment emptyEnv .deepseek false "/api/chat" true (.httpError 503) =
      { success := false, transaction := none, amount := none,
        error := some "Payment settlement failed", networkId := none } ∧
    ∃ res resp,
      handlePaymentFlow emptyEnv .deepseek false "/api/chat"
          (hSet emptyHeaders "X-PAYMENT" "AAAA") true .transportError
          (.httpError 503) =
        (.ok res, [.verify]) ∧ res.success = false ∧
        res.response = some resp ∧ resp.status = 402 :=
  have h := c2_facilitator_failure_folded emptyEnv .deepseek false "/api/chat"
    true .transportError (.httpError 503)
    (hSet emptyHeaders "X-PAYMENT" "AAAA") "AAAA" rfl devConfig rfl
  ⟨h.1 rfl, h.2.1 rfl, h.2.2 rfl⟩

/-- C3, confirmed: with a resolvable configuration, a request with no
`X-PAYMENT` header is answered by `handlePaymentFlow` with a 402 response
whose `accepts` array is exactly the one-element list containing the
requirements record; that record's `maxAmountRequired` is the model price,
and for model "deepseek" without vision (as the gate is wired for
`/api/chat`) the price is the fallback "30000" whenever `PRICE_DEEPSEEK` is
unset. -/
theorem c3_no_header_402 (env : Env) (model : AIModel) (hasVision : Bool)
    (endpoint : String) (headers : HeadersMap) (hp : Bool)
    (facV : FacOutcome FacVerifyResponse) (facS : FacOutcome FacSettleResponse)
    (cfg : X402Config) (hcfg : getX402Config env = .ok cfg)
    (hnone : extractPaymentHeader headers = none) :
    (∃ res,
      handlePaymentFlow env model hasVision endpoint headers hp facV facS =
        (.ok res, []) ∧ res.success = false ∧
        res.response = some
          { status := 402
            body := { x402Version := 1, error := "Payment required"
                      accepts := [chatRequirements env cfg model hasVision endpoint] } }) ∧
    (chatRequirements env cfg model hasVision endpoint).maxAmountRequired =
      getModelPrice env model hasVision ∧
    (env "PRICE_DEEPSEEK" = none → getModelPrice env .deepseek false = "30000") := by
  have hreq := createReq_eq model hasVision endpoint hcfg
  refine ⟨?_, rfl, ?_⟩
  · have hflow : handlePaymentFlow env model hasVision endpoint headers hp facV facS =
        (.ok { success := false
               response := some
                 { status := 402
                   body := { x402Version := 1, error := "Payment required"
                             accepts := [chatRequirements env cfg model hasVision endpoint] } }
               settlementResult := none
               paymentAmount := none },
          []) := by
      simp only [handlePaymentFlow, hnone, create402Response, hreq, Except.map]
      rfl
    exact ⟨_, hflow, rfl, rfl⟩
  · intro h
    simp [getModelPrice, pricePerMessage, getPrice, h]

/-- C3 witness: the empty environment (everything unset, development
defaults), model "deepseek", no header: a 402 with one accepts element
priced "30000". -/
theorem c3_witness :
    (∃ res,
      handlePaymentFlow emptyEnv .deepseek false "/api/chat" emptyHeaders true
          .transportError .transportError =
        (.ok res, []) ∧ res.success = false ∧
        res.response = some
          { status := 402
            body := { x402Version := 1, error := "Payment required"
                      accepts := [chatRequirements emptyEnv devConfig .deepseek
                        false "/api/chat"] } }) ∧
      getModelPrice emptyEnv .deepseek false = "30000" :=
  have h := c3_no_header_402 emptyEnv .deepseek false "/api/chat" emptyHeaders
    true .transportError .transportError devConfig rfl rfl
  ⟨h.1, h.2.2 rfl⟩

theorem normalizeGo_valid :
    ∀ (input : List AttachmentPayload) (count : Nat) (na : NormalizedAttachment),
      na ∈ normalizeGo input count →
        0 < na.size ∧ na.size ≤ MAX_ATTACHMENT_BYTES ∧
          isValidDataUrl na.dataUrl = true := by
  intro input
  induction input with
  | nil =>
    intro count na h
    simp [normalizeGo] at h
  | cons entry rest ih =>
    obtain ⟨nm, ty, sz, du⟩ := entry
    intro count na h
    rcases sz with _ | size
    · simp only [normalizeGo] at h
      exact ih count na h
    · simp only [normalizeGo] at h
      split at h
      · exact ih count na h
      · split at h
        · exact ih count na h
        · rename_i h1 h2
          push_neg at h1 h2
          have hurl : isValidDataUrl (du.getD "") = true := by
            cases hb : isValidDataUrl (du.getD "")
            · exact absurd hb h2.2
            · rfl
          split at h
          · simp at h
            subst h
            exact ⟨h1.2.1, h1.2.2, hurl⟩
          · rcases List.mem_cons.mp h with rfl | h
            · exact ⟨h1.2.1, h1.2.2, hurl⟩
            · exact ih (count + 1) na h

/-- C9, counterexample: a request with wallet address, message "hi" and one
oversized attachment (6 MiB, otherwise fully well-formed) is not rejected
with any 4xx: `normalizeAttachments` silently drops the entry (`continue`)
and validation proceeds with an empty attachment list — the claimed
attachment-specific 4xx never happens. -/
theorem c9_counterexample :
    validateChatRequest (some "walletAddr") (some "hi") [oversizedAttachment]
      "deepseek" = .proceed [] "hi" := by
  decide

/-- C9, amended: oversized and malformed attachments are silently dropped
during normalization rather than rejected — every attachment that survives
normalization has positive size within the 5 MiB limit and a dataUrl
matching the strict pattern, and a request with a wallet address and a
non-empty (after sanitization) message proceeds regardless of how many
invalid attachments it carried; a 400 is produced only when no message and
no valid attachment remain. -/
theorem c9_invalid_attachments_dropped (files : List AttachmentPayload)
    (w m : String) (hw : w ≠ "") (hm0 : m ≠ "")
    (hm : sanitizeUserMessage m ≠ "") :
    (∀ na ∈ normalizeAttachments files,
        0 < na.size ∧ na.size ≤ MAX_ATTACHMENT_BYTES ∧
          isValidDataUrl na.dataUrl = true) ∧
      validateChatRequest (some w) (some m) files "deepseek" =
        .proceed (normalizeAttachments files) (sanitizeUserMessage m) := by
  refine ⟨fun na h => normalizeGo_valid files 0 na h, ?_⟩
  simp only [validateChatRequest, Option.getD_some]
  rw [if_neg (by simp [hw, hm0]), if_neg (by decide), if_neg (by simp [hm])]

/-- C9 witness: the amended theorem at a request with the message "hi" and
two invalid attachments (one oversized, one with a malformed dataUrl) —
validation proceeds with both attachments dropped. -/
theorem c9_witness :
    validateChatRequest (some "w") (some "hi")
        [oversizedAttachment, malformedAttachment] "deepseek" =
      .proceed [] "hi" :=
  ((c9_invalid_attachments_dropped [oversizedAttachment, malformedAttachment]
      "w" "hi" (by decide) (by decide) (by decide)).2).trans (by decide)

/-- C10, counterexample: with `success = true` and a *present* transaction
that is the empty string, the claim requires the `X-PAYMENT-RESPONSE`
header to be added, but `settlement.transaction` is falsy in JavaScript, so
the code returns the response entirely unchanged and no header appears. -/
theorem c10_counterexample :
    addPaymentResponseHeaders "solana-devnet"
        { status := 200, statusText := "", headers := emptyHeaders, body := "ok" }
        { success := true, transaction := some "", amount := some "100000",
          error := none, networkId := none }
        "2025-01-26T00:00:00.000Z" =
      { status := 200, statusText := "", headers := emptyHeaders, body := "ok" } ∧
    hGet (addPaymentResponseHeaders "solana-devnet"
        { status := 200, statusText := "", headers := emptyHeaders, body := "ok" }
        { success := true, transaction := some "", amount := some "100000",
          error := none, networkId := none }
        "2025-01-26T00:00:00.000Z").headers "X-PAYMENT-RESPONSE" = none :=
  ⟨rfl, rfl⟩

/-- C10, amended: `addPaymentResponseHeaders` always preserves status,
statusText and body; it returns the response entirely unchanged when the
settlement did not succeed, when the transaction is absent, or when the
transaction is the empty string (JavaScript falsiness); and when
`success = true` with a non-empty transaction it sets exactly
`X-PAYMENT-RESPONSE` (base64 of the stringified
`{success, transaction, network, amount, timestamp}` receipt, amount
defaulting to "0") and `Access-Control-Expose-Headers`, leaving every
other header unchanged. -/
theorem c10_receipt_headers (network : String) (response : WebResponse)
    (s : SettlementResult) (timestamp : String) :
    (addPaymentResponseHeaders network response s timestamp).status = response.status ∧
    (addPaymentResponseHeaders network response s timestamp).statusText =
      response.statusText ∧
    (addPaymentResponseHeaders network response s timestamp).body = response.body ∧
    (s.success = false → addPaymentResponseHeaders network response s timestamp = response) ∧
    (s.transaction = none → addPaymentResponseHeaders network response s timestamp = response) ∧
    (s.transaction = some "" → addPaymentResponseHeaders network response s timestamp = response) ∧
    (∀ tx, s.success = true → s.transaction = some tx → tx ≠ "" →
      hGet (addPaymentResponseHeaders network response s timestamp).headers
          "X-PAYMENT-RESPONSE" =
        some (btoa (paymentResponseJson tx network (jsOr s.amount "0") timestamp)) ∧
      hGet (addPaymentResponseHeaders network response s timestamp).headers
          "Access-Control-Expose-Headers" = some "X-PAYMENT-RESPONSE" ∧
      ∀ name, jsToLower name ≠ "x-payment-response" →
        jsToLower name ≠ "access-control-expose-headers" →
        hGet (addPaymentResponseHeaders network response s timestamp).headers name =
          hGet response.headers name) := by
  have e1 : jsToLower "X-PAYMENT-RESPONSE" = "x-payment-response" := by decide
  have e2 : jsToLower "Access-Control-Expose-Headers" =
      "access-control-expose-headers" := by decide
  have e3 : ("x-payment-response" : String) ≠ "access-control-expose-headers" := by
    decide
  obtain ⟨suc, txo, amt, err, nid⟩ := s
  cases suc with
  | false =>
    refine ⟨rfl, rfl, rfl, fun _ => rfl, fun _ => rfl, fun _ => rfl, ?_⟩
    intro tx hsuc
    exact absurd hsuc (by simp)
  | true =>
    cases txo with
    | none =>
      refine ⟨rfl, rfl, rfl, fun h => absurd h (by simp), fun _ => rfl,
        fun h => absurd h (by simp), ?_⟩
      intro tx _ htx
      exact absurd htx (by simp)
    | some tx0 =>
      by_cases h0 : tx0 = ""
      · subst h0
        refine ⟨rfl, rfl, rfl, fun h => absurd h (by simp),
          fun h => absurd h (by simp), fun _ => rfl, ?_⟩
        intro tx _ htx htxne
        injection htx with he
        exact absurd he.symm htxne
      · refine ⟨?_, ?_, ?_, fun h => absurd h (by simp),
          fun h => absurd h (by simp),
          fun h => absurd (Option.some.inj h) h0, ?_⟩
        · simp [addPaymentResponseHeaders, h0]
        · simp [addPaymentResponseHeaders, h0]
        · simp [addPaymentResponseHeaders, h0]
        · intro tx _ htx htxne
          injection htx with he
          subst he
          refine ⟨?_, ?_, ?_⟩
          · simp [addPaymentResponseHeaders, h0, hGet, hSet, e1, e2, e3]
          · simp [addPaymentResponseHeaders, h0, hGet, hSet, e1, e2]
          · intro name hn1 hn2
            simp [addPaymentResponseHeaders, h0, hGet, hSet, e1, e2, hn1, hn2]

/-- C10 witness: a concrete successful settlement with transaction
"abc123" — the receipt header is set and an unrelated header
(`Content-Type`) is untouched. -/
theorem c10_witness :
    hGet (addPaymentResponseHeaders "solana-devnet"
        { status := 200, statusText := "OK",
          headers := hSet emptyHeaders "Content-Type" "application/json",
          body := "\x7b\x7d" }
        { success := true, transaction := some "abc123", amount := some "100000",
          error := none, networkId := none }
        "2025-01-26T00:00:00.000Z").headers "X-PAYMENT-RESPONSE" =
      some (btoa (paymentResponseJson "abc123" "solana-devnet" "100000"
        "2025-01-26T00:00:00.000Z")) ∧
    hGet (addPaymentResponseHeaders "solana-devnet"
        { status := 200, statusText := "OK",
          headers := hSet emptyHeaders "Content-Type" "application/json",
          body := "\x7b\x7d" }
        { success := true, transaction := some "abc123", amount := some "100000",
          error := none, networkId := none }
        "2025-01-26T00:00:00.000Z").headers "Content-Type" =
      some "application/json" := by
  have h := c10_receipt_headers "solana-devnet"
    { status := 200, statusText := "OK",
      headers := hSet emptyHeaders "Content-Type" "application/json",
      body := "\x7b\x7d" }
    { success := true, transaction := some "abc123", amount := some "100000",
      error := none, networkId := none }
    "2025-01-26T00:00:00.000Z"
  have h7 := h.2.2.2.2.2.2 "abc123" rfl rfl (by decide)
  refine ⟨h7.1, ?_⟩
  exact (h7.2.2 "Content-Type" (by decide) (by decide)).trans (by decide)
